import Mathlib

/-!
# Verification of the tracklab result-serialization core

A shallow embedding of the repository's two source files:

* `src/pbtrack/datastruct/detections.py` — the `Detections` / `Detection`
  record model with its derived geometric views;
* `src/tracklab/wrappers/eval/trackeval_evaluator.py` — the MOT-Challenge
  (line-format) and SoccerNet (document-format) encoders, and the metric
  formatting of the report reducer.

Conventions of the embedding:

* python/numpy floats are modelled as `ℚ`; machine floats only carry exact
  decimal fractions in every concrete case the claims mention;
* a pandas cell that can be `NaN`/`None` is an `Option`; a dropped column
  access or raised exception is an `Except.error`;
* a `DataFrame` is the list of its rows, each row a structure holding the
  columns the source reads, plus the positional `index` when the source
  uses `.index`.
-/

/-- Truncation toward zero: the semantics of python `int(...)` on a real
number. -/
def truncQ (q : ℚ) : ℤ := if 0 ≤ q then ⌊q⌋ else ⌈q⌉

/-- Rounding to the nearest integer with ties to even, the rounding mode of
`np.around(_, 0)`. -/
def roundHalfEven (q : ℚ) : ℤ :=
  if q - ⌊q⌋ < 1 / 2 then ⌊q⌋
  else if 1 / 2 < q - ⌊q⌋ then ⌊q⌋ + 1
  else if 2 ∣ ⌊q⌋ then ⌊q⌋ else ⌊q⌋ + 1

/-- `np.around(q, 3)`: round at the third decimal place, ties to even. -/
def around3 (q : ℚ) : ℚ := (roundHalfEven (q * 1000) : ℚ) / 1000

/-- Python substring containment `pat in s`. -/
def strContains (s pat : String) : Bool :=
  s.data.tails.any (fun t => pat.data.isPrefixOf t)

/-!
## Record model (`src/pbtrack/datastruct/detections.py`)
-/

/-- One detection row, with exactly the columns `Detection.create` stores.
Optional columns hold `none` for an absent (`None`/`NaN`) cell. -/
structure Detection where
  image_id : ℤ
  id : ℤ
  bbox : Option (List ℚ)
  keypoints_xyc : Option (List (ℚ × ℚ × ℚ))
  track_id : Option ℤ
  person_id : Option ℤ
  category_id : Option ℤ
deriving DecidableEq

/-- The `Detection.create` classmethod: a row from the given columns (the
source defaults every optional column to `None`; here they are passed
explicitly). -/
def Detection.create (image_id id : ℤ) (bbox : Option (List ℚ))
    (keypoints_xyc : Option (List (ℚ × ℚ × ℚ)))
    (track_id person_id category_id : Option ℤ) : Detection :=
  ⟨image_id, id, bbox, keypoints_xyc, track_id, person_id, category_id⟩

/-- A `Detections` collection is the list of its rows. -/
abbrev Detections := List Detection

/-- The row lambda of `Detections.bbox_ltrb`:
`np.concatenate((ltwh[:2], ltwh[:2] + ltwh[2:]))`. -/
def ltwhCellLtrb (ltwh : List ℚ) : List ℚ :=
  ltwh.take 2 ++ List.zipWith (fun a c => a + c) (ltwh.take 2) (ltwh.drop 2)

/-- The row lambda of `Detections.bbox_cmwh`:
`np.concatenate((ltwh[:2] + ltwh[2:] / 2, ltwh[2:]))`. -/
def ltwhCellCmwh (ltwh : List ℚ) : List ℚ :=
  List.zipWith (fun a c => a + c / 2) (ltwh.take 2) (ltwh.drop 2) ++ ltwh.drop 2

/-- The `Detections.bbox_ltrb` property: `self.bbox.apply(lambda ltwh: ...)`.
`Series.apply` aborts with the exception of the first failing cell, so the
whole view is `Except`-valued; a `None` cell fails at `ltwh[:2]`. -/
def Detections.bbox_ltrb (d : Detections) : Except String (List (List ℚ)) :=
  d.mapM (fun r =>
    match r.bbox with
    | some b => Except.ok (ltwhCellLtrb b)
    | none => Except.error "TypeError: NoneType is not subscriptable")

/-- The `Detections.bbox_cmwh` property, same shape as `bbox_ltrb`. -/
def Detections.bbox_cmwh (d : Detections) : Except String (List (List ℚ)) :=
  d.mapM (fun r =>
    match r.bbox with
    | some b => Except.ok (ltwhCellCmwh b)
    | none => Except.error "TypeError: NoneType is not subscriptable")

/-- The `Detections.keypoints_bbox_xyc` property as written in the source:
`self.bbox.apply(lambda r: kp_img_to_kp_bbox(r.keypoints_xyc, r.bbox_ltwh), axis=1)`.
`pandas.Series.apply` forwards unknown keyword arguments to the function, so
the lambda is invoked as `f(cell, axis=1)` on each cell of the `bbox` column
and raises `TypeError` at once (its body would in turn read
`r.keypoints_xyc` and `r.bbox_ltwh` on a plain 4-number box, attributes a
bbox cell does not have). The view therefore raises for every non-empty
collection and only returns an empty column for an empty one. -/
def Detections.keypoints_bbox_xyc (d : Detections) :
    Except String (List (List (ℚ × ℚ × ℚ))) :=
  d.mapM (fun _ =>
    (Except.error "TypeError: lambda got an unexpected keyword argument axis" :
      Except String (List (ℚ × ℚ × ℚ))))

/-- Modelled from the spec: `kp_img_to_kp_bbox` is imported from
`pbtrack.utils.coordinates`, a module absent from this sample. Spec item
4.1: for each keypoint (x, y, c) output (x − l, y − t, c). -/
def kp_img_to_kp_bbox (kps : List (ℚ × ℚ × ℚ)) (ltwh : List ℚ) :
    List (ℚ × ℚ × ℚ) :=
  kps.map (fun p => (p.1 - ltwh.getD 0 0, p.2.1 - ltwh.getD 1 0, p.2.2))

/-- Modelled from the spec: the intended `keypoints_bbox_xyc` derived view
(spec items 3 and 4.1) — each row's keypoints re-expressed in bbox-local
coordinates, rows with an absent `bbox` propagating an absent output. -/
def spec_keypoints_bbox_xyc (d : Detections) : List (Option (List (ℚ × ℚ × ℚ))) :=
  d.map (fun r =>
    match r.bbox, r.keypoints_xyc with
    | some b, some k => some (kp_img_to_kp_bbox k b)
    | _, _ => none)

/-- `.item()` on a pandas Series: the sole element of a length-1 series,
an error otherwise; a pending exception propagates. -/
def seriesItem (e : Except String (List α)) : Except String α :=
  match e with
  | .error s => .error s
  | .ok [a] => .ok a
  | .ok _ => .error "ValueError: can only convert an array of size 1"

/-- `Detection.__getattr__` resolving the derived property `bbox_ltrb`:
`getattr(self.to_frame().T, attr).item()` — promote the record to the
one-row collection `[d]`, apply the collection property, extract with
`.item()`. -/
def Detection.getattr_bbox_ltrb (d : Detection) : Except String (List ℚ) :=
  seriesItem (Detections.bbox_ltrb [d])

/-- `Detection.__getattr__` resolving `bbox_cmwh`. -/
def Detection.getattr_bbox_cmwh (d : Detection) : Except String (List ℚ) :=
  seriesItem (Detections.bbox_cmwh [d])

/-- `Detection.__getattr__` resolving `keypoints_bbox_xyc`. -/
def Detection.getattr_keypoints_bbox_xyc (d : Detection) :
    Except String (List (ℚ × ℚ × ℚ)) :=
  seriesItem (Detections.keypoints_bbox_xyc [d])

/-- The spec-side reading of the single-record round trip: access the
derived view on a one-row collection and take that single row's result. -/
def rowZeroResult (e : Except String (List α)) : Except String α :=
  match e with
  | .error s => .error s
  | .ok (a :: _) => .ok a
  | .ok [] => .error "IndexError: row 0"

/-- Re-derivation of (l, t, w, h) from the (l, t, r, b) view (spec item 8.1:
the claimed round trip). -/
def ltrbToLtwh : List ℚ → List ℚ
  | [l, t, r, b] => [l, t, r - l, b - t]
  | x => x

/-- Re-derivation of (l, t, w, h) from the (cx, cy, w, h) view. -/
def cmwhToLtwh : List ℚ → List ℚ
  | [cx, cy, w, h] => [cx - w / 2, cy - h / 2, w, h]
  | x => x

/-!
## Line-format (MOT Challenge) encoder
(`src/tracklab/wrappers/eval/trackeval_evaluator.py`)
-/

/-- One row of the tracker-state detections table, with the columns the two
encoders read. `index` is the row's positional index in the dataframe. -/
structure DetRow where
  index : ℤ
  image_id : ℤ
  video_id : ℤ
  track_id : Option ℤ
  bbox_ltwh : Option (List ℚ)
  bbox_pitch : Option (List ℚ)
  bbox_conf : Option ℚ
  category_id : Option ℤ
  role : Option String
  jersey_number : Option String
  team : Option String
deriving DecidableEq

/-- One row of the frame-metadata table (`image_metadatas`). `index` is the
dataframe index; `id` is the `id` column, which the line-format encoder
assigns in place. -/
structure ImgRow where
  index : ℤ
  id : Option ℤ
  frame : Option ℤ
  video_id : ℤ
  parameters : Option String
  relative_mean_reproj : Option ℚ
  accuracy5 : Option ℚ
  lines : Option String
deriving DecidableEq

/-- One row of the sequence-metadata table (`video_metadatas`): the
dataframe index and the `name` column. -/
structure VidRow where
  index : ℤ
  name : String
deriving DecidableEq

/-- One row of the dataframe `_mot_encoding` returns: the merged and
filtered table with the derived `bb_*` columns (`x = y = z = -1` are fixed
and kept implicit until the column selection). -/
structure MotRow where
  frame : ℤ
  video_id : ℤ
  track_id : ℤ
  bb_left : ℚ
  bb_top : ℚ
  bb_width : ℚ
  bb_height : ℚ
  bbox_conf : Option ℚ
  category_id : Option ℤ
deriving DecidableEq

/-- One line of a written MOT file after the final column selection
`[frame, track_id, bb_left, bb_top, bb_width, bb_height, bbox_conf,
clazz, y, z]`, where `clazz` is `category_id` or the sentinel column
`x = -1`. -/
structure MotOutRow where
  frame : ℤ
  track_id : ℤ
  bb_left : ℚ
  bb_top : ℚ
  bb_width : ℚ
  bb_height : ℚ
  bbox_conf : Option ℚ
  clazz : Option ℤ
  y : ℤ
  z : ℤ
deriving DecidableEq

/-- The value `_mot_encoding` leaves behind: the caller's `image_metadatas`
(the source mutates it in place: `image_metadatas["id"] = image_metadatas.index`)
together with the merged dataframe. `detections` is copied by the source
(`detections.copy()`) and `video_metadatas` is an unused parameter, so
neither is returned. -/
structure MotEncResult where
  image_metadatas : List ImgRow
  df : List MotRow
deriving DecidableEq

/-- `_mot_encoding`: assign `image_metadatas["id"]` from the index (an
in-place mutation of the caller's table), inner-merge frame metadata with
detections on `id = image_id` (left order preserved, as pandas does), drop
rows missing `frame`, `track_id` or the configured bbox column, coerce
`track_id` to int and destructure the bbox column into `bb_*`. -/
def _mot_encoding (detections : List DetRow) (image_metadatas : List ImgRow)
    (video_metadatas : List VidRow) (bbox_column : DetRow → Option (List ℚ)) :
    MotEncResult :=
  let imgs := image_metadatas.map (fun i => { i with id := some i.index })
  let merged := imgs.flatMap (fun i =>
    (detections.filter (fun d => i.id == some d.image_id)).map (fun d => (i, d)))
  let kept := merged.filter (fun p =>
    p.1.frame.isSome && p.2.track_id.isSome && (bbox_column p.2).isSome)
  { image_metadatas := imgs
    df := kept.map (fun p =>
      { frame := p.1.frame.getD 0
        video_id := p.1.video_id
        track_id := p.2.track_id.getD 0
        bb_left := ((bbox_column p.2).getD []).getD 0 0
        bb_top := ((bbox_column p.2).getD []).getD 1 0
        bb_width := ((bbox_column p.2).getD []).getD 2 0
        bb_height := ((bbox_column p.2).getD []).getD 3 0
        bbox_conf := p.2.bbox_conf
        category_id := p.2.category_id }) }

/-- `mot_df[mot_df["video_id"] == id]`: the rows of one sequence. -/
def motSelectVideo (mot_df : List MotRow) (vid : ℤ) : List MotRow :=
  mot_df.filter (fun r => r.video_id == vid)

/-- The 1-indexing fixup: `if file_df["frame"].min() == 0: frame += 1`.
An empty column has minimum `NaN`, which compares unequal to 0, so an empty
selection is left alone. -/
def motShiftIfZero (file_df : List MotRow) : List MotRow :=
  if (file_df.map MotRow.frame).min? = some 0 then
    file_df.map (fun r => { r with frame := r.frame + 1 })
  else file_df

/-- The per-sequence row pipeline of `save_in_mot_challenge_format`: select
the sequence, shift frames when the minimum is 0, sort ascending by frame.
(Only the relative order of equal-frame rows is unspecified in pandas;
every property proved below is independent of it.) -/
def motFileRows (mot_df : List MotRow) (vid : ℤ) : List MotRow :=
  (motShiftIfZero (motSelectVideo mot_df vid)).mergeSort
    (fun a b => decide (a.frame ≤ b.frame))

/-- The final column selection for one emitted line. -/
def motOutRow (save_classes : Bool) (r : MotRow) : MotOutRow :=
  { frame := r.frame
    track_id := r.track_id
    bb_left := r.bb_left
    bb_top := r.bb_top
    bb_width := r.bb_width
    bb_height := r.bb_height
    bbox_conf := r.bbox_conf
    clazz := if save_classes then r.category_id else some (-1)
    y := -1
    z := -1 }

/-- One iteration of the per-video loop: the file `<name>.txt` with its
rows. A sequence with no rows still yields its (empty) file —
`open(file_path, "w").close()` — so both branches produce one write. -/
def motVideoWrite (mot_df : List MotRow) (save_classes : Bool) (v : VidRow) :
    String × List MotOutRow :=
  (v.name ++ ".txt", (motFileRows mot_df v.index).map (motOutRow save_classes))

/-- The state `save_in_mot_challenge_format` leaves behind: the three
canonical tables as the caller observes them after the call, plus the list
of file writes. -/
structure MotSaveResult where
  detections : List DetRow
  image_metadatas : List ImgRow
  video_metadatas : List VidRow
  writes : List (String × List MotOutRow)
deriving DecidableEq

/-- `save_in_mot_challenge_format`: encode and write one file per video.
The `is_ground_truth` parameter is accepted and never read by the source,
so it has no effect. -/
def save_in_mot_challenge_format (detections : List DetRow)
    (image_metadatas : List ImgRow) (video_metadatas : List VidRow)
    (bbox_column : DetRow → Option (List ℚ))
    (save_classes is_ground_truth : Bool) : MotSaveResult :=
  let enc := _mot_encoding detections image_metadatas video_metadatas bbox_column
  { detections := detections
    image_metadatas := enc.image_metadatas
    video_metadatas := video_metadatas
    writes := video_metadatas.map (fun v => motVideoWrite enc.df save_classes v) }

/-!
## Document-format (SoccerNet) encoder
-/

/-- `transform_bbox_image`: re-encode a 4-component box as the named mapping
with keys x, y, w, h. -/
structure BboxImage where
  x : ℚ
  y : ℚ
  w : ℚ
  h : ℚ
deriving DecidableEq

/-- `transform_bbox_image(row)` = `{"x": row[0], "y": row[1], "w": row[2], "h": row[3]}`. -/
def transform_bbox_image (row : List ℚ) : BboxImage :=
  ⟨row.getD 0 0, row.getD 1 0, row.getD 2 0, row.getD 3 0⟩

/-- One prediction record after `soccernet_encoding` and `pd.concat`: the
union of the three per-supercategory column sets. A `none` field is a
`NaN` cell of the concatenated frame, omitted from the serialized record
(`{k: v ... if np.all(pd.notna(v))}`). `id`, `image_id`, `video_id` are
already coerced to strings by the encoder. -/
structure SnPred where
  id : String
  image_id : String
  video_id : String
  supercategory : String
  category_id : Option ℤ
  track_id : Option ℤ
  attributes : Option (List (String × Option String))
  bbox_image : Option BboxImage
  bbox_pitch : Option (List ℚ)
  parameters : Option String
  relative_mean_reproj : Option ℚ
  accuracy5 : Option ℚ
  lines : Option String
deriving DecidableEq

/-- The `dropna(subset=["track_id", "bbox_ltwh", "bbox_pitch"], how="any")`
keep-predicate of the object branch of `soccernet_encoding`. -/
def snObjectKept (r : DetRow) : Bool :=
  r.track_id.isSome && r.bbox_ltwh.isSome && r.bbox_pitch.isSome

/-- The column derivation of the object branch for one kept row: rename
`bbox_ltwh` to `bbox_image` and `jersey_number` to `jersey`, collect the
`attributes` sub-mapping from role/jersey/team, take `id` from the row
index, project to the object column set, re-encode `bbox_image` as a named
mapping, and coerce `video_id`, `image_id`, `id` to strings. -/
def snObjectRecord (r : DetRow) : SnPred :=
  { id := toString r.index
    image_id := toString r.image_id
    video_id := toString r.video_id
    supercategory := "object"
    category_id := r.category_id
    track_id := r.track_id
    attributes := some [("role", r.role), ("jersey", r.jersey_number), ("team", r.team)]
    bbox_image := r.bbox_ltwh.map transform_bbox_image
    bbox_pitch := r.bbox_pitch
    parameters := none
    relative_mean_reproj := none
    accuracy5 := none
    lines := none }

/-- `soccernet_encoding(detections, supercategory="object")`. The
supercategory assignment, `tolist` conversion and `NaN → None` replacement
are identity steps of this representation; then the mandatory-column rows
are kept and each is projected by `snObjectRecord`. -/
def soccernet_encoding_object (rows : List DetRow) : List SnPred :=
  (rows.filter snObjectKept).map snObjectRecord

/-- `soccernet_encoding(image_metadatas, supercategory="camera")`: one entry
per frame, `image_id` from the index, fixed category code 6, `id` the index
suffixed with the literal string 01. -/
def soccernet_encoding_camera (rows : List ImgRow) : List SnPred :=
  rows.map (fun r =>
    { id := toString r.index ++ "01"
      image_id := toString r.index
      video_id := toString r.video_id
      supercategory := "camera"
      category_id := some 6
      track_id := none
      attributes := none
      bbox_image := none
      bbox_pitch := none
      parameters := r.parameters
      relative_mean_reproj := r.relative_mean_reproj
      accuracy5 := r.accuracy5
      lines := none })

/-- `soccernet_encoding(image_metadatas, supercategory="pitch")`: one entry
per frame, fixed category code 5, `id` the index suffixed with the literal
string 00, carrying the scene line annotations. -/
def soccernet_encoding_pitch (rows : List ImgRow) : List SnPred :=
  rows.map (fun r =>
    { id := toString r.index ++ "00"
      image_id := toString r.index
      video_id := toString r.video_id
      supercategory := "pitch"
      category_id := some 5
      track_id := none
      attributes := none
      bbox_image := none
      bbox_pitch := none
      parameters := none
      relative_mean_reproj := none
      accuracy5 := none
      lines := r.lines })

/-- `predictions = pd.concat([detections, camera_metadata, pitch_metadata])`
over the three encodings (the source encodes copies of the canonical
tables, which is why they stay untouched). -/
def snPredictions (detections : List DetRow) (image_metadatas : List ImgRow) :
    List SnPred :=
  soccernet_encoding_object detections ++ soccernet_encoding_camera image_metadatas
    ++ soccernet_encoding_pitch image_metadatas

/-- `predictions[predictions["video_id"] == str(id)]` for one video. -/
def snVideoPredictions (detections : List DetRow) (image_metadatas : List ImgRow)
    (v : VidRow) : List SnPred :=
  (snPredictions detections image_metadatas).filter
    (fun p => p.video_id == toString v.index)

/-- One iteration of the per-video loop of `save_in_soccernet_format`: when
the filtered predictions are non-empty, one JSON file `<name>.json` holding
the predictions sorted ascending by `id`; when they are empty, no write at
all. -/
def snVideoWrites (detections : List DetRow) (image_metadatas : List ImgRow)
    (v : VidRow) : List (String × List SnPred) :=
  let preds := snVideoPredictions detections image_metadatas v
  if preds.isEmpty then []
  else [(v.name ++ ".json", preds.mergeSort (fun a b => decide (a.id ≤ b.id)))]

/-- The archive appends of one iteration: inside the non-empty branch, and
only when `save_zip` is set, the written file is appended to the shared
archive (named here by its in-archive file name). -/
def snVideoZip (detections : List DetRow) (image_metadatas : List ImgRow)
    (save_zip : Bool) (v : VidRow) : List String :=
  let preds := snVideoPredictions detections image_metadatas v
  if preds.isEmpty then []
  else if save_zip then [v.name ++ ".json"] else []

/-- The state `save_in_soccernet_format` leaves behind: the canonical tables
as the caller observes them afterwards, the JSON writes and the archive
appends. -/
structure SnSaveResult where
  detections : List DetRow
  image_metadatas : List ImgRow
  video_metadatas : List VidRow
  writes : List (String × List SnPred)
  zipEntries : List String
deriving DecidableEq

/-- `save_in_soccernet_format`: an immediate return when `is_ground_truth`
is set; otherwise encode copies of the tables and run the per-video loop.
`bbox_column_for_eval` and `save_classes` are parameters the source never
reads in this function. -/
def save_in_soccernet_format (detections : List DetRow)
    (image_metadatas : List ImgRow) (video_metadatas : List VidRow)
    (bbox_column_for_eval : DetRow → Option (List ℚ))
    (save_classes is_ground_truth save_zip : Bool) : SnSaveResult :=
  if is_ground_truth then
    ⟨detections, image_metadatas, video_metadatas, [], []⟩
  else
    ⟨detections, image_metadatas, video_metadatas,
      video_metadatas.flatMap (fun v => snVideoWrites detections image_metadatas v),
      video_metadatas.flatMap (fun v => snVideoZip detections image_metadatas save_zip v)⟩

/-!
## Report reducer: `format_metric`
-/

/-- The two shapes a formatted metric can take: a python `int`, or a scaled
and rounded number. -/
inductive MetricValue where
  | asInt (n : ℤ)
  | rounded (q : ℚ)
deriving DecidableEq

/-- The count-like test of `format_metric`: the metric name contains `TP`,
`FN`, `FP` or `TN` as a substring. -/
def countLikeName (metric_name : String) : Bool :=
  strContains metric_name "TP" || strContains metric_name "FN"
    || strContains metric_name "FP" || strContains metric_name "TN"

/-- `format_metric`: count-like metrics are rendered as `int(value)`, with
the single exception of the name `MOTP` (count-like only textually), which
— like every non-count-like metric — is rendered as
`np.around(value * scale_factor, 3)`. -/
def format_metric (metric_name : String) (metric_value scale_factor : ℚ) :
    MetricValue :=
  if countLikeName metric_name then
    if metric_name = "MOTP" then .rounded (around3 (metric_value * scale_factor))
    else .asInt (truncQ metric_value)
  else .rounded (around3 (metric_value * scale_factor))

/-!
## Claim theorems
-/

/-- C1: for every detection whose bbox is a 4-component box (l, t, w, h)
with w, h ≥ 0, the derived view `bbox_ltrb` equals (l, t, l+w, t+h), the
derived view `bbox_cmwh` equals (l+w/2, t+h/2, w, h), and re-deriving
(l, t, w, h) from either derived form round-trips exactly. -/
theorem c1_bbox_views_roundtrip (d : Detection) (l t w h : ℚ)
    (hb : d.bbox = some [l, t, w, h]) (hw : 0 ≤ w) (hh : 0 ≤ h) :
    Detections.bbox_ltrb [d] = Except.ok [[l, t, l + w, t + h]] ∧
    Detections.bbox_cmwh [d] = Except.ok [[l + w / 2, t + h / 2, w, h]] ∧
    ltrbToLtwh [l, t, l + w, t + h] = [l, t, w, h] ∧
    cmwhToLtwh [l + w / 2, t + h / 2, w, h] = [l, t, w, h] := by
  obtain ⟨i, j, bb, kp, tr, pe, ca⟩ := d
  replace hb : bb = some [l, t, w, h] := hb
  subst hb
  refine ⟨rfl, rfl, ?_, ?_⟩
  · simp [ltrbToLtwh]
  · simp [cmwhToLtwh]

/-- Witness for C1 at the box (1, 2, 3, 4). -/
theorem c1_bbox_views_roundtrip_witness :
    Detections.bbox_ltrb [Detection.create 0 0 (some [1, 2, 3, 4]) none none none none]
        = Except.ok [[1, 2, 1 + 3, 2 + 4]] ∧
    Detections.bbox_cmwh [Detection.create 0 0 (some [1, 2, 3, 4]) none none none none]
        = Except.ok [[1 + 3 / 2, 2 + 4 / 2, 3, 4]] ∧
    ltrbToLtwh [1, 2, 1 + 3, 2 + 4] = [1, 2, 3, 4] ∧
    cmwhToLtwh [1 + 3 / 2, 2 + 4 / 2, 3, 4] = [1, 2, 3, 4] :=
  c1_bbox_views_roundtrip (Detection.create 0 0 (some [1, 2, 3, 4]) none none none none)
    1 2 3 4 rfl (by norm_num) (by norm_num)

/-- C4: for a single record with a well-formed bbox, `__getattr__`-style
access of each collection-level derived property (`bbox_ltrb`, `bbox_cmwh`,
`keypoints_bbox_xyc`) yields the same outcome as building the one-row
collection, applying the collection property there and extracting that
single row's result (for `keypoints_bbox_xyc` both paths raise the same
error, cf. C5). -/
theorem c4_record_promotes_to_one_row_collection (d : Detection) (l t w h : ℚ)
    (hb : d.bbox = some [l, t, w, h]) :
    Detection.getattr_bbox_ltrb d = rowZeroResult (Detections.bbox_ltrb [d]) ∧
    Detection.getattr_bbox_cmwh d = rowZeroResult (Detections.bbox_cmwh [d]) ∧
    Detection.getattr_keypoints_bbox_xyc d
      = rowZeroResult (Detections.keypoints_bbox_xyc [d]) := by
  obtain ⟨i, j, bb, kp, tr, pe, ca⟩ := d
  replace hb : bb = some [l, t, w, h] := hb
  subst hb
  exact ⟨rfl, rfl, rfl⟩

/-- Witness for C4 at a concrete record. -/
theorem c4_record_promotes_witness :
    (Detection.create 5 6 (some [1, 2, 3, 4]) none none none none).bbox
        = some [1, 2, 3, 4] ∧
    (Detection.getattr_bbox_ltrb (Detection.create 5 6 (some [1, 2, 3, 4]) none none none none)
        = rowZeroResult (Detections.bbox_ltrb
            [Detection.create 5 6 (some [1, 2, 3, 4]) none none none none]) ∧
      Detection.getattr_bbox_cmwh (Detection.create 5 6 (some [1, 2, 3, 4]) none none none none)
        = rowZeroResult (Detections.bbox_cmwh
            [Detection.create 5 6 (some [1, 2, 3, 4]) none none none none]) ∧
      Detection.getattr_keypoints_bbox_xyc
          (Detection.create 5 6 (some [1, 2, 3, 4]) none none none none)
        = rowZeroResult (Detections.keypoints_bbox_xyc
            [Detection.create 5 6 (some [1, 2, 3, 4]) none none none none])) :=
  ⟨rfl, c4_record_promotes_to_one_row_collection
    (Detection.create 5 6 (some [1, 2, 3, 4]) none none none none) 1 2 3 4 rfl⟩

/-- C5: the claim says `keypoints_bbox_xyc` maps each keypoint (x, y, c) of
a row with a present bbox to (x − l, y − t, c). The source property instead
raises for every non-empty collection (its lambda is applied over the
`bbox` column cells with a stray `axis` keyword and reads row attributes a
box value does not have), while the spec-modelled view returns the
translated keypoints; evaluated here at one row with bbox (10, 20, 30, 40)
and keypoint (12, 25, 1). -/
theorem c5_keypoints_view_code_bug :
    Detections.keypoints_bbox_xyc
        [Detection.create 0 0 (some [10, 20, 30, 40]) (some [(12, 25, 1)]) none none none]
      = Except.error "TypeError: lambda got an unexpected keyword argument axis" ∧
    spec_keypoints_bbox_xyc
        [Detection.create 0 0 (some [10, 20, 30, 40]) (some [(12, 25, 1)]) none none none]
      = [some [(2, 5, 1)]] := by
  constructor
  · rfl
  · norm_num [spec_keypoints_bbox_xyc, kp_img_to_kp_bbox, Detection.create, List.getD]

/-- The claim-side mandatory-column predicate of C2: a document-format
object entry requires non-null `track_id`, image-space bbox and pitch-space
bbox. -/
def snObjectMandatory (r : DetRow) : Bool :=
  r.track_id.isSome && r.bbox_ltwh.isSome && r.bbox_pitch.isSome

/-- A detection row for the C2 example, complete except for the given
`track_id`. -/
def c2DetRow (idx : ℤ) (tid : Option ℤ) : DetRow :=
  { index := idx
    image_id := idx
    video_id := 0
    track_id := tid
    bbox_ltwh := some [0, 0, 1, 1]
    bbox_pitch := some [0, 0, 1, 1]
    bbox_conf := none
    category_id := none
    role := none
    jersey_number := none
    team := none }

/-- The spec's C2 example: 5 detections of which 2 lack `track_id`. -/
def c2ExampleRows : List DetRow :=
  [c2DetRow 0 (some 1), c2DetRow 1 none, c2DetRow 2 (some 2),
   c2DetRow 3 none, c2DetRow 4 (some 3)]

/-- C2: the object-category output of the document-format encoder contains
exactly the input detections having non-null `track_id`, image bbox and
pitch bbox — it is the mandatory-column filter followed by the per-row
projection, its length counts the rows passing the filter, and on the 5-row
example with 2 missing `track_id` exactly 3 entries are produced. -/
theorem c2_object_entries_exactly_filtered (rows : List DetRow) :
    soccernet_encoding_object rows
        = (rows.filter snObjectMandatory).map snObjectRecord ∧
    (soccernet_encoding_object rows).length = rows.countP snObjectMandatory ∧
    (soccernet_encoding_object c2ExampleRows).length = 3 := by
  have h : snObjectMandatory = snObjectKept := rfl
  refine ⟨by rw [h]; exact rfl, ?_, by decide⟩
  simp [soccernet_encoding_object, h, List.countP_eq_length_filter]

/-- C3: per sequence in the line-format encoder, a minimum input frame of 0
makes every emitted row an input row with its frame shifted by exactly +1,
a minimum of 1 leaves the rows unshifted, and the emitted rows are sorted
ascending by frame. -/
theorem c3_line_format_frame_shift_and_sort (mot_df : List MotRow) (vid : ℤ) :
    (((motSelectVideo mot_df vid).map MotRow.frame).min? = some 0 →
      (motFileRows mot_df vid).Perm
        ((motSelectVideo mot_df vid).map (fun r => { r with frame := r.frame + 1 }))) ∧
    (((motSelectVideo mot_df vid).map MotRow.frame).min? = some 1 →
      (motFileRows mot_df vid).Perm (motSelectVideo mot_df vid)) ∧
    List.Pairwise (fun a b => a.frame ≤ b.frame) (motFileRows mot_df vid) := by
  refine ⟨?_, ?_, ?_⟩
  · intro h
    unfold motFileRows motShiftIfZero
    rw [if_pos h]
    exact List.mergeSort_perm _ _
  · intro h
    unfold motFileRows motShiftIfZero
    rw [if_neg (by rw [h]; decide)]
    exact List.mergeSort_perm _ _
  · unfold motFileRows
    have htrans : ∀ a b c : MotRow, decide (a.frame ≤ b.frame) = true →
        decide (b.frame ≤ c.frame) = true → decide (a.frame ≤ c.frame) = true := by
      intro a b c hab hbc
      simp only [decide_eq_true_eq] at *
      exact le_trans hab hbc
    have htotal : ∀ a b : MotRow,
        (decide (a.frame ≤ b.frame) || decide (b.frame ≤ a.frame)) = true := by
      intro a b
      rcases le_total a.frame b.frame with hle | hle <;> simp [hle]
    exact (List.sorted_mergeSort htrans htotal
        (motShiftIfZero (motSelectVideo mot_df vid))).imp
      (fun hab => of_decide_eq_true hab)

/-- A two-row single-sequence table for the C3 witness, frames [1, 0]. -/
def c3ExampleDf : List MotRow :=
  [⟨1, 7, 5, 0, 0, 0, 0, none, none⟩, ⟨0, 7, 6, 0, 0, 0, 0, none, none⟩]

/-- Witness for C3: the example sequence has minimum frame 0, so its output
is a permutation of the +1-shifted input, and it is sorted by frame. -/
theorem c3_line_format_witness :
    (motFileRows c3ExampleDf 7).Perm
      ((motSelectVideo c3ExampleDf 7).map (fun r => { r with frame := r.frame + 1 })) ∧
    List.Pairwise (fun a b : MotRow => a.frame ≤ b.frame) (motFileRows c3ExampleDf 7) :=
  ⟨(c3_line_format_frame_shift_and_sort c3ExampleDf 7).1 (by decide),
   (c3_line_format_frame_shift_and_sort c3ExampleDf 7).2.2⟩

/-- C6 counterexample: the claim says the line-format encoder with
`is_ground_truth = true` writes no files; invoked on one video named v with
no detections at all, it still writes the (empty) file v.txt. -/
theorem c6_mot_gt_noop_counterexample :
    (save_in_mot_challenge_format [] [] [⟨0, "v"⟩] (fun d => d.bbox_ltwh)
      false true).writes ≠ [] := by
  simp [save_in_mot_challenge_format]

/-- C6 amended: invoking the line-format encoder with `is_ground_truth =
true` is not a no-op — the flag is accepted and never read, so the call
behaves exactly as with `is_ground_truth = false`, writing one file per
video. -/
theorem c6_mot_gt_flag_is_ignored (detections : List DetRow)
    (image_metadatas : List ImgRow) (video_metadatas : List VidRow)
    (bbox_column : DetRow → Option (List ℚ)) (save_classes : Bool) :
    save_in_mot_challenge_format detections image_metadatas video_metadatas
        bbox_column save_classes true
      = save_in_mot_challenge_format detections image_metadatas video_metadatas
        bbox_column save_classes false := rfl

/-- A frame-metadata row without an `id` column value, for the C7
counterexample. -/
def c7ExampleImg : ImgRow := ⟨0, none, some 1, 5, none, none, none, none⟩

/-- C7 counterexample: the claim says both encoders leave the canonical
collections unchanged; the line-format encoder invoked on a one-row
frame-metadata table without `id` leaves that table mutated (its `id`
column assigned from the index). -/
theorem c7_mot_mutates_image_metadatas :
    (save_in_mot_challenge_format [] [c7ExampleImg] [] (fun d => d.bbox_ltwh)
      false false).image_metadatas ≠ [c7ExampleImg] := by decide

/-- C7 amended: the document-format encoder leaves all three canonical
tables unchanged, and the line-format encoder leaves the detections and
sequence-metadata tables unchanged — but it mutates the frame-metadata
table in place, assigning its `id` column from its index. -/
theorem c7_canonical_tables_after_encoding (detections : List DetRow)
    (image_metadatas : List ImgRow) (video_metadatas : List VidRow)
    (bbox_column : DetRow → Option (List ℚ))
    (save_classes is_ground_truth save_zip : Bool) :
    (save_in_soccernet_format detections image_metadatas video_metadatas
        bbox_column save_classes is_ground_truth save_zip).detections = detections ∧
    (save_in_soccernet_format detections image_metadatas video_metadatas
        bbox_column save_classes is_ground_truth save_zip).image_metadatas
      = image_metadatas ∧
    (save_in_soccernet_format detections image_metadatas video_metadatas
        bbox_column save_classes is_ground_truth save_zip).video_metadatas
      = video_metadatas ∧
    (save_in_mot_challenge_format detections image_metadatas video_metadatas
        bbox_column save_classes is_ground_truth).detections = detections ∧
    (save_in_mot_challenge_format detections image_metadatas video_metadatas
        bbox_column save_classes is_ground_truth).video_metadatas = video_metadatas ∧
    (save_in_mot_challenge_format detections image_metadatas video_metadatas
        bbox_column save_classes is_ground_truth).image_metadatas
      = image_metadatas.map (fun i => { i with id := some i.index }) := by
  cases is_ground_truth <;> exact ⟨rfl, rfl, rfl, rfl, rfl, rfl⟩

/-- C9: a sequence whose filtered prediction set is empty gets no JSON file
and no archive append from the document-format encoder (whose write list is
the concatenation of the per-video writes), unlike the line-format encoder,
which still creates an empty file for a sequence with no rows. -/
theorem c9_empty_sequence_document_vs_line (detections : List DetRow)
    (image_metadatas : List ImgRow) (save_zip : Bool) (v : VidRow)
    (h : snVideoPredictions detections image_metadatas v = [])
    (mot_df : List MotRow) (save_classes : Bool)
    (hm : motSelectVideo mot_df v.index = [])
    (video_metadatas : List VidRow) (bbox_column : DetRow → Option (List ℚ))
    (other_classes : Bool) :
    snVideoWrites detections image_metadatas v = [] ∧
    snVideoZip detections image_metadatas save_zip v = [] ∧
    motVideoWrite mot_df save_classes v = (v.name ++ ".txt", []) ∧
    (save_in_soccernet_format detections image_metadatas video_metadatas
        bbox_column other_classes false save_zip).writes
      = video_metadatas.flatMap (fun w => snVideoWrites detections image_metadatas w) := by
  refine ⟨?_, ?_, ?_, rfl⟩
  · simp [snVideoWrites, h]
  · simp [snVideoZip, h]
  · simp [motVideoWrite, motFileRows, motShiftIfZero, hm]

/-- Witness for C9 at a concrete empty sequence. -/
theorem c9_empty_sequence_witness :
    snVideoWrites [] [] ⟨3, "seq"⟩ = [] ∧
    snVideoZip [] [] true ⟨3, "seq"⟩ = [] ∧
    motVideoWrite [] false ⟨3, "seq"⟩ = ("seq" ++ ".txt", []) ∧
    (save_in_soccernet_format [] [] [⟨3, "seq"⟩] (fun d => d.bbox_ltwh)
        false false true).writes
      = [⟨3, "seq"⟩].flatMap (fun w => snVideoWrites [] [] w) :=
  c9_empty_sequence_document_vs_line [] [] true ⟨3, "seq"⟩ rfl [] false rfl
    [⟨3, "seq"⟩] (fun d => d.bbox_ltwh) false

/-- A value with at most three decimal places is a fixed point of the
3-decimal rounding. -/
theorem around3_of_thousandths (n : ℤ) :
    around3 ((n : ℚ) / 1000) = (n : ℚ) / 1000 := by
  have h : ((n : ℚ) / 1000) * 1000 = (n : ℚ) := by norm_num
  unfold around3 roundHalfEven
  rw [h, Int.floor_intCast]
  simp only [sub_self]
  rw [if_pos (by norm_num : (0 : ℚ) < 1 / 2)]

/-- C8: `format_metric` renders a count-like metric (name containing TP,
FN, FP or TN) other than `MOTP` as the integer truncation of its value, and
renders `MOTP` and every non-count-like metric as the value times the scale
factor rounded to 3 decimal places; in particular MOTA 0.4567 at scale 100
renders 45.67, CLR_TP 120.0 renders the integer 120, and MOTP 0.812 at
scale 100 renders 81.2. -/
theorem c8_format_metric_display_rules (metric_name : String) (v s : ℚ) :
    (countLikeName metric_name = true → metric_name ≠ "MOTP" →
      format_metric metric_name v s = MetricValue.asInt (truncQ v)) ∧
    (metric_name = "MOTP" →
      format_metric metric_name v s = MetricValue.rounded (around3 (v * s))) ∧
    (countLikeName metric_name = false →
      format_metric metric_name v s = MetricValue.rounded (around3 (v * s))) ∧
    format_metric "MOTA" (4567 / 10000) 100 = MetricValue.rounded (4567 / 100) ∧
    format_metric "CLR_TP" 120 100 = MetricValue.asInt 120 ∧
    format_metric "MOTP" (812 / 1000) 100 = MetricValue.rounded (812 / 10) := by
  refine ⟨?_, ?_, ?_, ?_, ?_, ?_⟩
  · intro h1 h2
    unfold format_metric
    rw [h1, if_pos rfl, if_neg h2]
  · intro h
    subst h
    unfold format_metric
    rw [show countLikeName "MOTP" = true from by decide, if_pos rfl, if_pos rfl]
  · intro h
    unfold format_metric
    rw [h, if_neg (by decide)]
  · unfold format_metric
    rw [show countLikeName "MOTA" = false from by decide, if_neg (by decide)]
    have e1 : ((4567 : ℚ) / 10000) * 100 = ((45670 : ℤ) : ℚ) / 1000 := by
      push_cast
      norm_num
    rw [e1, around3_of_thousandths]
    norm_num
  · unfold format_metric
    rw [show countLikeName "CLR_TP" = true from by decide, if_pos rfl,
      if_neg (by decide)]
    have e1 : truncQ 120 = 120 := by
      unfold truncQ
      rw [if_pos (by norm_num : (0 : ℚ) ≤ 120)]
      norm_num
    rw [e1]
  · unfold format_metric
    rw [show countLikeName "MOTP" = true from by decide, if_pos rfl, if_pos rfl]
    have e1 : ((812 : ℚ) / 1000) * 100 = ((81200 : ℤ) : ℚ) / 1000 := by
      push_cast
      norm_num
    rw [e1, around3_of_thousandths]
    norm_num

/-- Witness for C8 on the count-like branch at CLR_TP with value 120. -/
theorem c8_format_metric_witness :
    countLikeName "CLR_TP" = true ∧ "CLR_TP" ≠ "MOTP" ∧
    format_metric "CLR_TP" 120 100 = MetricValue.asInt (truncQ 120) :=
  ⟨by decide, by decide,
    (c8_format_metric_display_rules "CLR_TP" 120 100).1 (by decide) (by decide)⟩

/-- C10: a count-like metric other than `MOTP` is rendered as the
truncation toward zero of its raw value — the scale factor is never
applied; with that metric name, the value 120.9 renders as the integer 120
and the value -2.5 renders as -2 (toward zero, not toward minus
infinity). -/
theorem c10_count_metrics_truncate_unscaled (metric_name : String)
    (h1 : countLikeName metric_name = true) (h2 : metric_name ≠ "MOTP")
    (v s t : ℚ) :
    format_metric metric_name v s = MetricValue.asInt (truncQ v) ∧
    format_metric metric_name v s = format_metric metric_name v t ∧
    format_metric metric_name (1209 / 10) s = MetricValue.asInt 120 ∧
    format_metric metric_name (-(5 : ℚ) / 2) s = MetricValue.asInt (-2) := by
  have hbranch : ∀ u r : ℚ,
      format_metric metric_name u r = MetricValue.asInt (truncQ u) := by
    intro u r
    unfold format_metric
    rw [h1, if_pos rfl, if_neg h2]
  refine ⟨hbranch v s, (hbranch v s).trans (hbranch v t).symm, ?_, ?_⟩
  · rw [hbranch]
    have e1 : truncQ (1209 / 10) = 120 := by
      unfold truncQ
      rw [if_pos (by norm_num : (0 : ℚ) ≤ 1209 / 10)]
      norm_num
    rw [e1]
  · rw [hbranch]
    have e1 : truncQ (-(5 : ℚ) / 2) = -2 := by
      unfold truncQ
      rw [if_neg (by norm_num : ¬ (0 : ℚ) ≤ -(5 : ℚ) / 2)]
      rw [show (-(5 : ℚ) / 2) = -(5 / 2) by ring, Int.ceil_neg]
      norm_num
    rw [e1]

/-- Witness for C10 at the count-like metric CLR_FN with value 120.9 and
two different scale factors. -/
theorem c10_count_metrics_witness :
    format_metric "CLR_FN" (1209 / 10) 100 = MetricValue.asInt 120 ∧
    format_metric "CLR_FN" (1209 / 10) 100 = format_metric "CLR_FN" (1209 / 10) 1 :=
  ⟨(c10_count_metrics_truncate_unscaled "CLR_FN" (by decide) (by decide)
      (1209 / 10) 100 1).2.2.1,
   (c10_count_metrics_truncate_unscaled "CLR_FN" (by decide) (by decide)
      (1209 / 10) 100 1).2.1⟩
